import Mathlib

/-!
Verification of the realtime-subscription / notification / presence subsystem
of the candlelife client, shallowly embedded in Lean from the TypeScript
source (useRealtimeSubscription, ChatSubscriptionManager,
UnifiedNotificationService, useUnifiedChat handler, useEnhancedUserPresence).
-/

namespace Candlelife

/-! ## Presence tracker (useEnhancedUserPresence) -/

/-- status field of a user_presence row: 'online' | 'offline' | 'away' | 'typing'. -/
inductive PresenceStatus where
  | online
  | offline
  | away
  | typing
deriving DecidableEq, Repr

/-- EnhancedUserPresence record.  last_seen is the epoch-millisecond value of
the stored ISO timestamp (what new Date(presence.last_seen).getTime() yields). -/
structure EnhancedUserPresence where
  user_id : String
  status : PresenceStatus
  last_seen : Int
  current_conversation : Option String
deriving DecidableEq, Repr

/-- The userStatuses Map, as an association list keyed by user id. -/
abbrev PresenceMap := List (String × EnhancedUserPresence)

/-- diffSeconds = (now.getTime() - lastSeen.getTime()) / 1000, exact rational
division as in JS floating division on these magnitudes. -/
def diffSeconds (now lastSeen : Int) : ℚ :=
  ((now - lastSeen : Int) : ℚ) / 1000

/-- getUserStatus: absent user is offline; a heartbeat older than 90 seconds
forces offline; otherwise the stored status is returned. -/
def getUserStatus (userStatuses : PresenceMap) (now : Int) (userId : String) :
    PresenceStatus :=
  match userStatuses.lookup userId with
  | none => .offline
  | some presence =>
      if diffSeconds now presence.last_seen > 90 then .offline
      else presence.status

/-- isUserOnline: status === 'online' || status === 'typing'. -/
def isUserOnline (userStatuses : PresenceMap) (now : Int) (userId : String) :
    Bool :=
  match getUserStatus userStatuses now userId with
  | .online => true
  | .typing => true
  | _ => false

end Candlelife

namespace Candlelife

/-! ## UnifiedNotificationService -/

/-- A notification record as stored in the service's log. -/
structure UnifiedNotificationData where
  id : String
  type : String
  title : String
  body : String
  avatar : Option String
  timestamp : String
  read : Bool
  conversationId : Option String
  userId : Option String
deriving DecidableEq, Repr

/-- The argument of addNotification: a record without id/timestamp/read. -/
structure NotificationInput where
  type : String
  title : String
  body : String
  avatar : Option String
  conversationId : Option String
  userId : Option String
deriving DecidableEq, Repr

/-- Service state: the in-memory log plus the persisted localStorage copy. -/
structure NotifServiceState where
  notifications : List UnifiedNotificationData
  storage : Option (List UnifiedNotificationData)
deriving DecidableEq, Repr

/-- The record built at the top of addNotification; crypto.randomUUID() and
new Date().toISOString() are passed in as freshId / nowIso. -/
def mkNotification (input : NotificationInput) (freshId nowIso : String) :
    UnifiedNotificationData :=
  { id := freshId
    type := input.type
    title := input.title
    body := input.body
    avatar := input.avatar
    timestamp := nowIso
    read := false
    conversationId := input.conversationId
    userId := input.userId }

/-- addNotification: unshift the new record, keep only the first 100 when the
length exceeds 100, then saveToStorage. -/
def addNotification (s : NotifServiceState) (input : NotificationInput)
    (freshId nowIso : String) : NotifServiceState :=
  let newNotification := mkNotification input freshId nowIso
  let ns := newNotification :: s.notifications
  let ns := if ns.length > 100 then ns.take 100 else ns
  { notifications := ns, storage := some ns }

end Candlelife

namespace Candlelife

/-! ## JS Map operations, as association lists in insertion order -/

/-- Map.set: replace the entry for an existing key in place, or append a new
entry at the end (JS Maps preserve insertion order). -/
def mapSet {β : Type} (m : List (String × β)) (k : String) (v : β) :
    List (String × β) :=
  match m with
  | [] => [(k, v)]
  | (k', v') :: rest =>
      if k' == k then (k, v) :: rest else (k', v') :: mapSet rest k v

/-- Map.delete: remove the entry for a key. -/
def mapDelete {β : Type} (m : List (String × β)) (k : String) :
    List (String × β) :=
  m.filter (fun p => !(p.1 == k))

end Candlelife

namespace Candlelife

/-! ## useRealtimeSubscription registry (src/unnamed/part_000, first version)

The process-wide activeSubscriptions Map together with the set of channels
currently held open against the realtime client.  Operations are the mount
effect body (acquire) and the cleanup registry effect (release), with the
SUBSCRIBED acknowledgement of a newly created channel modeled as arriving
before the next operation runs (sequential operation semantics). -/

/-- An activeSubscriptions entry: the channel handle and the subscriber count
(a JS number, so modeled as Int). -/
structure RegEntry where
  channel : Nat
  subscribers : Int
deriving DecidableEq, Repr

/-- Registry state: the activeSubscriptions Map, the list of channels open
against the realtime client tagged with the key they were created for, and a
counter supplying fresh channel handles. -/
structure RegState where
  activeSubscriptions : List (String × RegEntry)
  openChannels : List (String × Nat)
  nextChannel : Nat
deriving DecidableEq, Repr

def initRegState : RegState := ⟨[], [], 0⟩

/-- The mount effect body for subscription key k.  An existing entry is reused
with subscribers incremented and no new channel; otherwise a channel is
created and subscribed, and on the SUBSCRIBED ack the entry is stored with
subscribers set to 1. -/
def acquire (s : RegState) (k : String) : RegState :=
  match s.activeSubscriptions.lookup k with
  | some sub =>
      { s with activeSubscriptions :=
          mapSet s.activeSubscriptions k ⟨sub.channel, sub.subscribers + 1⟩ }
  | none =>
      let c := s.nextChannel
      { activeSubscriptions := mapSet s.activeSubscriptions k ⟨c, 1⟩
        openChannels := (k, c) :: s.openChannels
        nextChannel := c + 1 }

/-- The cleanup registry effect for key k: decrement subscribers and, at zero
or below, unsubscribe/remove the entry's channel and delete the entry. -/
def release (s : RegState) (k : String) : RegState :=
  match s.activeSubscriptions.lookup k with
  | some sub =>
      let n := sub.subscribers - 1
      if n ≤ 0 then
        { s with
            activeSubscriptions := mapDelete s.activeSubscriptions k
            openChannels :=
              s.openChannels.filter (fun p => !(p.2 == sub.channel)) }
      else
        { s with activeSubscriptions :=
            mapSet s.activeSubscriptions k ⟨sub.channel, n⟩ }
  | none => s

inductive RegOp where
  | acquire (k : String)
  | release (k : String)
deriving DecidableEq, Repr

def regStep (s : RegState) : RegOp → RegState
  | .acquire k => acquire s k
  | .release k => release s k

def runReg (ops : List RegOp) : RegState :=
  ops.foldl regStep initRegState

/-- The channels currently open for key k. -/
def keyChannels (s : RegState) (k : String) : List (String × Nat) :=
  s.openChannels.filter (fun p => p.1 == k)

/-- The open channels a registry entry accounts for: exactly one for a present
entry, none otherwise. -/
def entryChannels (k : String) : Option RegEntry → List (String × Nat)
  | some e => [(k, e.channel)]
  | none => []

/-- Coupling invariant: open channel handles are pairwise distinct and fresh,
and the channels open for a key are exactly the one recorded in its registry
entry (none when the key has no entry). -/
def RegInv (s : RegState) : Prop :=
  (s.openChannels.map Prod.snd).Nodup ∧
  (∀ p ∈ s.openChannels, p.2 < s.nextChannel) ∧
  (∀ k, keyChannels s k = entryChannels k (s.activeSubscriptions.lookup k))

end Candlelife

namespace Candlelife

/-! ## useRealtimeSubscription registry, asynchronous creation steps

The same effect body, but with the SUBSCRIBED acknowledgement split off:
the map entry is only stored inside the status callback, so between channel
creation and the ack the registry has no entry for the key. -/

/-- Registry state between the synchronous effect body and the asynchronous
status callback.  creations counts supabase.channel(...).subscribe calls. -/
structure MicroState where
  activeSubscriptions : List (String × RegEntry)
  pendingAcks : List (String × Nat)
  creations : Nat
  nextChannel : Nat
deriving DecidableEq, Repr

def initMicro : MicroState := ⟨[], [], 0, 0⟩

/-- The synchronous part of the mount effect for key k: reuse an existing
entry, or create and subscribe a new channel whose SUBSCRIBED ack is still
pending.  No entry is stored in activeSubscriptions until the ack. -/
def acquireStart (s : MicroState) (k : String) : MicroState :=
  match s.activeSubscriptions.lookup k with
  | some sub =>
      { s with activeSubscriptions :=
          mapSet s.activeSubscriptions k ⟨sub.channel, sub.subscribers + 1⟩ }
  | none =>
      { s with
          pendingAcks := (k, s.nextChannel) :: s.pendingAcks
          creations := s.creations + 1
          nextChannel := s.nextChannel + 1 }

/-- The status callback receiving SUBSCRIBED for channel c created under key
k: store the entry with subscribers set to 1. -/
def ackSubscribed (s : MicroState) (k : String) (c : Nat) : MicroState :=
  { s with
      activeSubscriptions := mapSet s.activeSubscriptions k ⟨c, 1⟩
      pendingAcks := s.pendingAcks.filter (fun p => !(p == (k, c))) }

end Candlelife

namespace Candlelife

/-! ## ChatSubscriptionManager (src/src/hooks/useSimpleChat.ts, first version) -/

/-- A realtime channel handle: identity plus the topic it was created with. -/
structure ChannelHandle where
  id : Nat
  topic : String
deriving DecidableEq, Repr

/-- The singleton manager's fields, plus two observation counters: creations
counts channel create-and-subscribe calls, teardowns counts
unsubscribe/removeChannel calls on a held channel. -/
structure ChatMgrState where
  channel : Option ChannelHandle
  channelName : Option String
  isActive : Bool
  currentUserId : Option String
  subscriberCount : Nat
  cleanupPending : Bool
  isSubscribing : Bool
  creations : Nat
  teardowns : Nat
deriving DecidableEq, Repr

def initChatMgr : ChatMgrState :=
  { channel := none, channelName := none, isActive := false
    currentUserId := none, subscriberCount := 0, cleanupPending := false
    isSubscribing := false, creations := 0, teardowns := 0 }

/-- forceCleanup: unsubscribe and remove the channel when one is held, then
reset every field and clear any pending cleanup timeout. -/
def forceCleanup (s : ChatMgrState) : ChatMgrState :=
  { channel := none, channelName := none, currentUserId := none
    isActive := false, isSubscribing := false, subscriberCount := 0
    cleanupPending := false, creations := s.creations
    teardowns := if s.channel.isSome then s.teardowns + 1 else s.teardowns }

/-- createSubscription: guarded by isSubscribing; generates a fresh channel
name nm, removes any lingering channel, creates and subscribes a new channel
with handle id cid, and records the current user. -/
def createSubscription (s : ChatMgrState) (userId : String) (cid : Nat)
    (nm : String) : ChatMgrState :=
  if s.isSubscribing then s
  else
    { s with
        isSubscribing := true
        channelName := some nm
        teardowns := if s.channel.isSome then s.teardowns + 1 else s.teardowns
        channel := some ⟨cid, nm⟩
        currentUserId := some userId
        creations := s.creations + 1 }

/-- subscribe(userId): rejected while a subscription is being created;
otherwise increments the subscriber count, reuses the live channel when it
already serves this user, and otherwise force-cleans and creates afresh. -/
def subscribeMgr (s : ChatMgrState) (userId : String) (cid : Nat)
    (nm : String) : Bool × ChatMgrState :=
  if s.isSubscribing then (false, s)
  else
    let s := { s with subscriberCount := s.subscriberCount + 1 }
    if s.isActive && s.currentUserId == some userId && s.channel.isSome then
      (true, s)
    else
      let s := forceCleanup s
      let s := { s with cleanupPending := false }
      (true, createSubscription s userId cid nm)

/-- unsubscribe(): decrement the subscriber count (floored at 0) and, at
zero, schedule the delayed cleanup. -/
def unsubscribeMgr (s : ChatMgrState) : ChatMgrState :=
  let n := s.subscriberCount - 1
  if n == 0 then { s with subscriberCount := n, cleanupPending := true }
  else { s with subscriberCount := n }

/-- The scheduled cleanup timeout firing: the pending timer is spent, and
forceCleanup runs only if the subscriber count is still zero. -/
def cleanupTimerFire (s : ChatMgrState) : ChatMgrState :=
  let s := { s with cleanupPending := false }
  if s.subscriberCount == 0 then forceCleanup s else s

/-- The channel.subscribe status callback of createSubscription: SUBSCRIBED
activates the entry; CLOSED, CHANNEL_ERROR and TIMED_OUT deactivate it and
drop the channel reference when the reporting channel is still the current
one. -/
def statusCallbackMgr (s : ChatMgrState) (status : String) : ChatMgrState :=
  if status == "SUBSCRIBED" then
    { s with isActive := true, isSubscribing := false }
  else if status == "CLOSED" || status == "CHANNEL_ERROR"
      || status == "TIMED_OUT" then
    let s := { s with isActive := false, isSubscribing := false }
    match s.channel with
    | some ch =>
        if s.channelName == some ch.topic then
          { s with channel := none, channelName := none }
        else s
    | none => s
  else s

end Candlelife

namespace Candlelife

/-! ## useRealtimeSubscription status callback (src/unnamed/part_000) -/

/-- The channel.subscribe status callback for subscription key k and channel
c: SUBSCRIBED stores the entry with one subscriber; CLOSED and CHANNEL_ERROR
delete the entry; any other status (including TIMED_OUT) leaves the map
untouched. -/
def statusCallbackReg (m : List (String × RegEntry)) (k : String) (c : Nat)
    (status : String) : List (String × RegEntry) :=
  if status == "SUBSCRIBED" then mapSet m k ⟨c, 1⟩
  else if status == "CLOSED" || status == "CHANNEL_ERROR" then mapDelete m k
  else m

/-- The consumer-local refs of the useRealtimeSubscription hook. -/
structure ConsumerRefs where
  subscriptionKey : Option String
  isSubscribed : Bool
deriving DecidableEq, Repr

/-- The hook's cleanup callback: only acts when the consumer holds a key and
is subscribed; its registry effect is exactly release, and the consumer refs
are cleared afterwards. -/
def cleanupHook (c : ConsumerRefs) (s : RegState) : ConsumerRefs × RegState :=
  match c.subscriptionKey, c.isSubscribed with
  | some key, true => (⟨none, false⟩, release s key)
  | _, _ => (c, s)

end Candlelife

namespace Candlelife

/-! ## Change handlers -/

/-- A profiles row, as used by the message handlers. -/
structure Profile where
  id : String
  username : Option String
  avatar_url : Option String
deriving DecidableEq, Repr

/-- Outcome of the awaited sender-profile query: data with no error, a
returned error object, or the await throwing. -/
inductive LookupOutcome where
  | success (p : Profile)
  | failure
  | thrown
deriving DecidableEq, Repr

/-- Outcome of enhancedNotificationSoundService.play(). -/
inductive SoundOutcome where
  | played
  | failed
deriving DecidableEq, Repr

/-- Which of the handler's side effects were observed to run. -/
structure HandlerResult where
  invalidated : Bool
  notificationAdded : Bool
deriving DecidableEq, Repr

/-- ChatSubscriptionManager.handleMessage: on a lookup error it warns and
returns early; on a throw the outer catch swallows everything after the
await; on success the sound playback is individually guarded and the handler
proceeds to add the notification and invalidate the message queries (when a
query client is set). -/
def handleMessage (hasQueryClient : Bool) (lookup : LookupOutcome)
    (sound : SoundOutcome) : HandlerResult :=
  match lookup with
  | .thrown => ⟨false, false⟩
  | .failure => ⟨false, false⟩
  | .success _ =>
      match sound with
      | .played => ⟨hasQueryClient, true⟩
      | .failed => ⟨hasQueryClient, true⟩

/-- The useUnifiedChat INSERT handler: skips everything when the sender's
conversation is active; destructures only data from the lookup, so an error
leaves senderData null and the whole body is skipped; the unguarded await of
the sound playback means a sound failure hits the outer catch before the
notification and the invalidation run. -/
def unifiedChatHandler (isActiveConversation : Bool)
    (lookup : LookupOutcome) (sound : SoundOutcome) : HandlerResult :=
  if isActiveConversation then ⟨false, false⟩
  else
    match lookup with
    | .thrown => ⟨false, false⟩
    | .failure => ⟨false, false⟩
    | .success _ =>
        match sound with
        | .failed => ⟨false, false⟩
        | .played => ⟨true, true⟩

end Candlelife

namespace Candlelife

/-! ## Array aliasing of the notification service

JS arrays are heap references; the spread in getNotifications and
notifyListeners allocates a fresh array.  A small store of array cells makes
the aliasing explicit. -/

/-- A store of JS array cells holding notification lists; a reference is an
index into the store. -/
structure Heap where
  cells : List (List UnifiedNotificationData)
deriving DecidableEq, Repr

/-- Dereference: the contents of the array at reference r. -/
def Heap.read (h : Heap) (r : Nat) : List UnifiedNotificationData :=
  (h.cells[r]?).getD []

/-- In-place mutation of the array at reference r. -/
def Heap.write (h : Heap) (r : Nat) (v : List UnifiedNotificationData) :
    Heap :=
  ⟨h.cells.set r v⟩

/-- Allocation of a fresh array holding v. -/
def Heap.alloc (h : Heap) (v : List UnifiedNotificationData) : Nat × Heap :=
  (h.cells.length, ⟨h.cells ++ [v]⟩)

/-- The service's this.notifications field: a reference into the store. -/
structure NotifServiceRef where
  notifRef : Nat
deriving DecidableEq, Repr

/-- getNotifications: return [...this.notifications] — a freshly allocated
copy of the internal array. -/
def getNotifications (svc : NotifServiceRef) (h : Heap) : Nat × Heap :=
  h.alloc (h.read svc.notifRef)

/-- notifyListeners / subscribe call each listener with
[...this.notifications] — the argument is a freshly allocated copy. -/
def listenerArg (svc : NotifServiceRef) (h : Heap) : Nat × Heap :=
  h.alloc (h.read svc.notifRef)

/-- saveToStorage persists the contents of this.notifications. -/
def saveToStorageRef (svc : NotifServiceRef) (h : Heap) :
    List UnifiedNotificationData :=
  h.read svc.notifRef

end Candlelife


namespace Candlelife

/-! ## Concrete sample values -/

/-- A sample presence record: stored as online, heartbeat at epoch 0. -/
def presenceSample : EnhancedUserPresence :=
  ⟨"u1", .online, 0, none⟩

/-- A sample addNotification input. -/
def inputSample : NotificationInput :=
  ⟨"message", "Nova mensagem", "oi", none, some "u2", some "u2"⟩

/-- A sample stored notification record. -/
def notifSample : UnifiedNotificationData :=
  mkNotification inputSample "id0" "ts0"

/-- A manager state with one live, acknowledged subscription for user u1. -/
def mgrLive : ChatMgrState :=
  { channel := some ⟨0, "chat_messages_u1_0"⟩
    channelName := some "chat_messages_u1_0"
    isActive := true
    currentUserId := some "u1"
    subscriberCount := 1
    cleanupPending := false
    isSubscribing := false
    creations := 1
    teardowns := 0 }

end Candlelife

namespace Candlelife

/-! ## Lemmas about the Map operations -/

theorem lookup_cons {β : Type} (a k : String) (v : β)
    (l : List (String × β)) :
    List.lookup a ((k, v) :: l) = if a = k then some v else List.lookup a l := by
  by_cases h : a = k
  · subst h; simp only [List.lookup, beq_self_eq_true, if_true]
  · simp only [List.lookup, beq_eq_false_iff_ne.mpr h, if_neg h]

theorem lookup_mapSet_self {β : Type} (m : List (String × β)) (k : String)
    (v : β) : (mapSet m k v).lookup k = some v := by
  induction m with
  | nil => simp [mapSet, lookup_cons]
  | cons hd tl ih =>
      obtain ⟨k', v'⟩ := hd
      by_cases h : k' = k
      · simp [mapSet, h, lookup_cons]
      · simp only [mapSet, beq_iff_eq, h, if_false]
        rw [lookup_cons, if_neg (fun e => h e.symm)]
        exact ih

theorem lookup_mapSet_ne {β : Type} (m : List (String × β)) (k k' : String)
    (v : β) (h : k' ≠ k) : (mapSet m k v).lookup k' = m.lookup k' := by
  induction m with
  | nil => simp [mapSet, lookup_cons, h]
  | cons hd tl ih =>
      obtain ⟨k₀, v₀⟩ := hd
      by_cases h0 : k₀ = k
      · subst h0
        simp only [mapSet, beq_self_eq_true, if_true]
        rw [lookup_cons, lookup_cons, if_neg h, if_neg h]
      · simp only [mapSet, beq_iff_eq, h0, if_false]
        rw [lookup_cons, lookup_cons]
        by_cases h1 : k' = k₀
        · simp [h1]
        · rw [if_neg h1, if_neg h1]; exact ih

theorem lookup_mapDelete_self {β : Type} (m : List (String × β)) (k : String) :
    (mapDelete m k).lookup k = none := by
  induction m with
  | nil => simp [mapDelete]
  | cons hd tl ih =>
      obtain ⟨k₀, v₀⟩ := hd
      by_cases h0 : k₀ = k
      · simpa [mapDelete, h0] using ih
      · simp only [mapDelete, List.filter_cons,
          beq_eq_false_iff_ne.mpr h0, Bool.not_false, if_true]
        rw [lookup_cons, if_neg (fun e => h0 e.symm)]
        exact ih

theorem lookup_mapDelete_ne {β : Type} (m : List (String × β)) (k k' : String)
    (h : k' ≠ k) : (mapDelete m k).lookup k' = m.lookup k' := by
  induction m with
  | nil => simp [mapDelete]
  | cons hd tl ih =>
      obtain ⟨k₀, v₀⟩ := hd
      by_cases h0 : k₀ = k
      · subst h0
        simp only [mapDelete, List.filter_cons, beq_self_eq_true,
          Bool.not_true, if_false]
        rw [lookup_cons, if_neg h]
        exact ih
      · simp only [mapDelete, List.filter_cons,
          beq_eq_false_iff_ne.mpr h0, Bool.not_false, if_true]
        rw [lookup_cons, lookup_cons]
        by_cases h1 : k' = k₀
        · simp [h1]
        · rw [if_neg h1, if_neg h1]; exact ih


/-! ## Registry invariant lemmas -/

theorem regInv_init : RegInv initRegState := by
  refine ⟨List.nodup_nil, ?_, ?_⟩
  · intro p hp; cases hp
  · intro k; simp [keyChannels, initRegState, entryChannels, List.lookup]

theorem regInv_acquire (s : RegState) (k0 : String) (h : RegInv s) :
    RegInv (acquire s k0) := by
  obtain ⟨hnd, hbd, hkey⟩ := h
  cases hl : s.activeSubscriptions.lookup k0 with
  | some e =>
      have hs : acquire s k0 =
          { s with activeSubscriptions :=
              mapSet s.activeSubscriptions k0 ⟨e.channel, e.subscribers + 1⟩ } := by
        unfold acquire; rw [hl]
      rw [hs]
      refine ⟨hnd, hbd, ?_⟩
      intro k
      show keyChannels s k = entryChannels k
        ((mapSet s.activeSubscriptions k0 ⟨e.channel, e.subscribers + 1⟩).lookup k)
      by_cases hk : k = k0
      · subst hk
        rw [lookup_mapSet_self, hkey k, hl]
        rfl
      · rw [lookup_mapSet_ne _ _ _ _ hk, hkey k]
  | none =>
      have hs : acquire s k0 =
          { activeSubscriptions :=
              mapSet s.activeSubscriptions k0 ⟨s.nextChannel, 1⟩
            openChannels := (k0, s.nextChannel) :: s.openChannels
            nextChannel := s.nextChannel + 1 } := by
        unfold acquire; rw [hl]
      rw [hs]
      refine ⟨?_, ?_, ?_⟩
      · simp only [List.map_cons]
        refine List.Nodup.cons ?_ hnd
        intro hmem
        obtain ⟨p, hp, hp2⟩ := List.mem_map.1 hmem
        exact absurd hp2 (Nat.ne_of_lt (hbd p hp))
      · intro p hp
        rcases List.mem_cons.1 hp with h1 | h1
        · subst h1; exact Nat.lt_succ_self _
        · exact Nat.lt_succ_of_lt (hbd p h1)
      · intro k
        show List.filter (fun p => p.1 == k) ((k0, s.nextChannel) :: s.openChannels)
          = entryChannels k
              ((mapSet s.activeSubscriptions k0 ⟨s.nextChannel, 1⟩).lookup k)
        rw [List.filter_cons]
        by_cases hk : k = k0
        · subst hk
          rw [if_pos (by simp), lookup_mapSet_self]
          have := hkey k
          rw [hl] at this
          rw [show List.filter (fun p => p.1 == k) s.openChannels =
                keyChannels s k from rfl, this]
          rfl
        · rw [if_neg (by simp [beq_iff_eq]; exact fun e => hk e.symm),
              lookup_mapSet_ne _ _ _ _ hk]
          exact hkey k

theorem regInv_release (s : RegState) (k0 : String) (h : RegInv s) :
    RegInv (release s k0) := by
  obtain ⟨hnd, hbd, hkey⟩ := h
  cases hl : s.activeSubscriptions.lookup k0 with
  | none =>
      have hs : release s k0 = s := by unfold release; rw [hl]
      rw [hs]; exact ⟨hnd, hbd, hkey⟩
  | some e =>
      by_cases hn : e.subscribers - 1 ≤ 0
      · -- teardown branch: channel removed, entry deleted
        have hs : release s k0 =
            { s with
                activeSubscriptions := mapDelete s.activeSubscriptions k0
                openChannels :=
                  s.openChannels.filter (fun p => !(p.2 == e.channel)) } := by
          unfold release; rw [hl]; simp [hn]
        rw [hs]
        have hsub : (s.openChannels.filter (fun p => !(p.2 == e.channel))).Sublist
            s.openChannels := List.filter_sublist _
        have hmem0 : (k0, e.channel) ∈ s.openChannels := by
          have := hkey k0
          rw [hl] at this
          have hx : (k0, e.channel) ∈ keyChannels s k0 := by
            rw [this]; exact List.mem_singleton_self _
          exact List.mem_of_mem_filter hx
        refine ⟨?_, ?_, ?_⟩
        · exact hnd.sublist (hsub.map Prod.snd)
        · intro p hp; exact hbd p (hsub.mem hp)
        · intro k
          show List.filter (fun p => p.1 == k)
              (s.openChannels.filter (fun p => !(p.2 == e.channel)))
            = entryChannels k ((mapDelete s.activeSubscriptions k0).lookup k)
          have hcomm : List.filter
                (fun a => (a.1 == k) && !(a.2 == e.channel)) s.openChannels
              = List.filter (fun a => !(a.2 == e.channel) && (a.1 == k))
                  s.openChannels :=
            List.filter_congr (fun a _ => Bool.and_comm _ _)
          rw [List.filter_filter, hcomm, ← List.filter_filter,
            show List.filter (fun p => p.1 == k) s.openChannels
              = keyChannels s k from rfl, hkey k]
          by_cases hk : k = k0
          · subst hk
            rw [lookup_mapDelete_self, hl]
            simp [entryChannels]
          · rw [lookup_mapDelete_ne _ _ _ hk]
            cases hl1 : s.activeSubscriptions.lookup k with
            | none => simp [entryChannels]
            | some e1 =>
                have hmem1 : (k, e1.channel) ∈ s.openChannels := by
                  have := hkey k
                  rw [hl1] at this
                  have hx : (k, e1.channel) ∈ keyChannels s k := by
                    rw [this]; exact List.mem_singleton_self _
                  exact List.mem_of_mem_filter hx
                have hne : e1.channel ≠ e.channel := by
                  intro hc
                  have := List.inj_on_of_nodup_map hnd hmem1 hmem0 (by simpa using hc)
                  exact hk (congrArg Prod.fst this)
                simp [entryChannels, List.filter_cons, hne]
      · -- decrement branch: map entry updated, channels untouched
        have hs : release s k0 =
            { s with activeSubscriptions :=
                mapSet s.activeSubscriptions k0 ⟨e.channel, e.subscribers - 1⟩ } := by
          unfold release; rw [hl]; simp [hn]
        rw [hs]
        refine ⟨hnd, hbd, ?_⟩
        intro k
        show keyChannels s k = entryChannels k
          ((mapSet s.activeSubscriptions k0 ⟨e.channel, e.subscribers - 1⟩).lookup k)
        by_cases hk : k = k0
        · subst hk
          rw [lookup_mapSet_self, hkey k, hl]
          rfl
        · rw [lookup_mapSet_ne _ _ _ _ hk, hkey k]

theorem regInv_foldl (ops : List RegOp) (s : RegState) (h : RegInv s) :
    RegInv (ops.foldl regStep s) := by
  induction ops generalizing s with
  | nil => exact h
  | cons op rest ih =>
      cases op with
      | acquire k => exact ih _ (regInv_acquire s k h)
      | release k => exact ih _ (regInv_release s k h)

theorem regInv_run (ops : List RegOp) : RegInv (runReg ops) :=
  regInv_foldl ops initRegState regInv_init

end Candlelife
namespace Candlelife

/-! ## Claims -/

/-- Claim C6: for every user in the presence map, a last_seen heartbeat more
than the 90-second staleness threshold old makes getUserStatus report
offline regardless of the stored status; otherwise the stored status is
returned. -/
theorem claim_C6_staleness (m : PresenceMap) (now : Int) (uid : String)
    (p : EnhancedUserPresence) (hp : m.lookup uid = some p) :
    (diffSeconds now p.last_seen > 90 → getUserStatus m now uid = .offline) ∧
    (¬ diffSeconds now p.last_seen > 90 →
      getUserStatus m now uid = p.status) := by
  constructor <;> intro h <;> simp [getUserStatus, hp, h]

theorem claim_C6_witness :
    ([("u1", presenceSample)] : PresenceMap).lookup "u1" = some presenceSample ∧
    diffSeconds 100000 presenceSample.last_seen > 90 ∧
    getUserStatus [("u1", presenceSample)] 100000 "u1" = .offline := by
  have h1 : ([("u1", presenceSample)] : PresenceMap).lookup "u1"
      = some presenceSample := by decide
  have h2 : diffSeconds 100000 presenceSample.last_seen > 90 := by
    norm_num [diffSeconds, presenceSample]
  exact ⟨h1, h2, (claim_C6_staleness _ 100000 "u1" presenceSample h1).1 h2⟩

/-- Claim C9: a user identifier with no entry in the presence map gets
status offline from getUserStatus, and isUserOnline is false for it. -/
theorem claim_C9_absent_user_offline (m : PresenceMap) (now : Int)
    (uid : String) (h : m.lookup uid = none) :
    getUserStatus m now uid = .offline ∧ isUserOnline m now uid = false := by
  have h1 : getUserStatus m now uid = .offline := by
    unfold getUserStatus; rw [h]
  refine ⟨h1, ?_⟩
  unfold isUserOnline; rw [h1]

theorem claim_C9_witness :
    ([] : PresenceMap).lookup "u9" = none ∧
    getUserStatus [] 0 "u9" = .offline ∧ isUserOnline [] 0 "u9" = false := by
  have h : ([] : PresenceMap).lookup "u9" = none := rfl
  exact ⟨h, (claim_C9_absent_user_offline [] 0 "u9" h).1,
    (claim_C9_absent_user_offline [] 0 "u9" h).2⟩

end Candlelife

namespace Candlelife

/-- Claim C4: adding a notification to a log that already holds 100 entries
yields exactly 100 entries, with the new record unshifted to the front, the
oldest (last) record evicted, and the resulting log persisted. -/
theorem claim_C4_log_capped (s : NotifServiceState)
    (input : NotificationInput) (freshId nowIso : String)
    (h : s.notifications.length = 100) :
    (addNotification s input freshId nowIso).notifications.length = 100 ∧
    (addNotification s input freshId nowIso).notifications
      = mkNotification input freshId nowIso :: s.notifications.dropLast ∧
    (addNotification s input freshId nowIso).storage
      = some ((addNotification s input freshId nowIso).notifications) := by
  have h101 : (mkNotification input freshId nowIso :: s.notifications).length
      = 101 := by simp [h]
  have heq : addNotification s input freshId nowIso =
      { notifications :=
          (mkNotification input freshId nowIso :: s.notifications).take 100
        storage := some
          ((mkNotification input freshId nowIso :: s.notifications).take 100) } := by
    simp only [addNotification]
    rw [h101]
    norm_num
  have htake : (mkNotification input freshId nowIso :: s.notifications).take 100
      = mkNotification input freshId nowIso :: s.notifications.dropLast := by
    rw [show (100 : Nat) = 99 + 1 from rfl, List.take_succ_cons,
      List.dropLast_eq_take, h]
  rw [heq, htake]
  refine ⟨?_, rfl, rfl⟩
  simp [h]

theorem claim_C4_witness :
    (NotifServiceState.mk (List.replicate 100 notifSample) none).notifications.length
      = 100 ∧
    (addNotification ⟨List.replicate 100 notifSample, none⟩ inputSample
      "id1" "ts1").notifications.length = 100 := by
  have h : (NotifServiceState.mk (List.replicate 100 notifSample)
      none).notifications.length = 100 := by simp
  exact ⟨h, (claim_C4_log_capped ⟨List.replicate 100 notifSample, none⟩
    inputSample "id1" "ts1" h).1⟩

/-- Claim C3 counterexample: when the sender-profile lookup returns an
error, ChatSubscriptionManager.handleMessage returns early and the cache
invalidation does not run; and in the useUnifiedChat handler a failing sound
playback also prevents invalidation. -/
theorem claim_C3_counterexample :
    (handleMessage true .failure .played).invalidated = false ∧
    (unifiedChatHandler false (.success ⟨"s1", some "alice", none⟩)
      .failed).invalidated = false := by
  constructor <;> rfl

/-- Claim C3 amended: in ChatSubscriptionManager.handleMessage, when the
sender-profile lookup succeeds the cache invalidation runs whether or not
the sound playback fails (the playback is individually guarded); but when
the lookup returns an error or throws, the handler returns without
invalidating, and in the useUnifiedChat handler even a sound-playback
failure prevents invalidation. -/
theorem claim_C3_amended (p : Profile) (sound : SoundOutcome) :
    (handleMessage true (.success p) sound).invalidated = true ∧
    (handleMessage true .failure sound).invalidated = false ∧
    (handleMessage true .thrown sound).invalidated = false ∧
    (unifiedChatHandler false (.success p) .failed).invalidated = false := by
  cases sound <;> exact ⟨rfl, rfl, rfl, rfl⟩

/-- Claim C8: teardown is idempotent.  forceCleanup applied twice equals
forceCleanup applied once and performs no channel teardown when no channel
is held; the hook cleanup is safe to call with no registry entry (the
registry is unchanged) and applying it twice leaves exactly the state of
applying it once. -/
theorem claim_C8_teardown_idempotent :
    (∀ s : ChatMgrState, forceCleanup (forceCleanup s) = forceCleanup s) ∧
    (∀ s : ChatMgrState, s.channel = none →
      (forceCleanup s).teardowns = s.teardowns) ∧
    (∀ (c : ConsumerRefs) (s : RegState),
      cleanupHook (cleanupHook c s).1 (cleanupHook c s).2 = cleanupHook c s) ∧
    (∀ (s : RegState) (k : String),
      s.activeSubscriptions.lookup k = none → release s k = s) := by
  refine ⟨?_, ?_, ?_, ?_⟩
  · intro s; simp [forceCleanup]
  · intro s h; simp [forceCleanup, h]
  · intro c s
    obtain ⟨key, sub⟩ := c
    cases key <;> cases sub <;> simp [cleanupHook]
  · intro s k h
    unfold release; rw [h]

theorem claim_C8_witness :
    initRegState.activeSubscriptions.lookup "messages_u1" = none ∧
    release initRegState "messages_u1" = initRegState ∧
    forceCleanup (forceCleanup initChatMgr) = forceCleanup initChatMgr := by
  have h : initRegState.activeSubscriptions.lookup "messages_u1" = none := rfl
  exact ⟨h, claim_C8_teardown_idempotent.2.2.2 initRegState "messages_u1" h,
    claim_C8_teardown_idempotent.1 initChatMgr⟩

end Candlelife

namespace Candlelife

/-- Claim C1: over every sequence of acquire/release operations on the
registry, at most one channel is open for key k at any point; an acquire on
a key that already has a registry entry reuses the entry — its subscriber
count is incremented, and no channel is created or opened. -/
theorem claim_C1_single_channel (ops : List RegOp) (k : String) :
    (keyChannels (runReg ops) k).length ≤ 1 ∧
    (∀ (s : RegState) (e : RegEntry),
      s.activeSubscriptions.lookup k = some e →
      (acquire s k).openChannels = s.openChannels ∧
      (acquire s k).nextChannel = s.nextChannel ∧
      (acquire s k).activeSubscriptions.lookup k
        = some ⟨e.channel, e.subscribers + 1⟩) := by
  constructor
  · have h := (regInv_run ops).2.2 k
    rw [h]
    cases (runReg ops).activeSubscriptions.lookup k <;> simp [entryChannels]
  · intro s e he
    have hs : acquire s k =
        { s with activeSubscriptions :=
            mapSet s.activeSubscriptions k ⟨e.channel, e.subscribers + 1⟩ } := by
      unfold acquire; rw [he]
    rw [hs]
    exact ⟨rfl, rfl, lookup_mapSet_self _ _ _⟩

theorem claim_C1_witness :
    (runReg [RegOp.acquire "messages_u1"]).activeSubscriptions.lookup
        "messages_u1" = some ⟨0, 1⟩ ∧
    (keyChannels (runReg [RegOp.acquire "messages_u1"]) "messages_u1").length
        ≤ 1 ∧
    (acquire (runReg [RegOp.acquire "messages_u1"]) "messages_u1").openChannels
        = (runReg [RegOp.acquire "messages_u1"]).openChannels := by
  have h : (runReg [RegOp.acquire "messages_u1"]).activeSubscriptions.lookup
      "messages_u1" = some ⟨0, 1⟩ := by decide
  exact ⟨h, (claim_C1_single_channel [RegOp.acquire "messages_u1"]
      "messages_u1").1,
    ((claim_C1_single_channel [RegOp.acquire "messages_u1"] "messages_u1").2
      (runReg [RegOp.acquire "messages_u1"]) ⟨0, 1⟩ h).1⟩

/-- Claim C2 counterexample: in the useRealtimeSubscription registry the
entry is only stored on the SUBSCRIBED ack, so a second acquire for the same
key arriving while the first creation is still in progress creates a second
channel — two creations, not exactly one. -/
theorem claim_C2_counterexample :
    (acquireStart (acquireStart initMicro "messages_u1")
        "messages_u1").creations = 2 ∧
    ¬ (acquireStart (acquireStart initMicro "messages_u1")
        "messages_u1").creations = 1 := by
  constructor
  · decide
  · decide

/-- Claim C2 amended: ChatSubscriptionManager's isSubscribing flag does gate
creation — from an idle manager the first subscribe performs exactly one
channel creation and leaves the flag set, and a second subscribe arriving
mid-creation is rejected unchanged, so the two calls cause exactly one
creation; the useRealtimeSubscription registry, however, has no such gate
and creates a second channel (see the counterexample). -/
theorem subscribeMgr_of_isSubscribing (s : ChatMgrState) (u : String)
    (c : Nat) (n : String) (h : s.isSubscribing = true) :
    subscribeMgr s u c n = (false, s) := by
  simp [subscribeMgr, h]

theorem claim_C2_creating_gate (s0 : ChatMgrState) (u : String)
    (c1 c2 : Nat) (n1 n2 : String) (h1 : s0.isSubscribing = false)
    (h2 : s0.isActive = false) :
    (subscribeMgr s0 u c1 n1).2.creations = s0.creations + 1 ∧
    (subscribeMgr s0 u c1 n1).2.isSubscribing = true ∧
    (subscribeMgr (subscribeMgr s0 u c1 n1).2 u c2 n2).1 = false ∧
    (subscribeMgr (subscribeMgr s0 u c1 n1).2 u c2 n2).2
      = (subscribeMgr s0 u c1 n1).2 ∧
    (subscribeMgr (subscribeMgr s0 u c1 n1).2 u c2 n2).2.creations
      = s0.creations + 1 := by
  have hfirst : (subscribeMgr s0 u c1 n1).2 =
      createSubscription
        { forceCleanup { s0 with subscriberCount := s0.subscriberCount + 1 }
          with cleanupPending := false } u c1 n1 := by
    simp [subscribeMgr, h1, h2]
  have hcreate : (subscribeMgr s0 u c1 n1).2.creations = s0.creations + 1 ∧
      (subscribeMgr s0 u c1 n1).2.isSubscribing = true := by
    rw [hfirst]
    simp [createSubscription, forceCleanup]
  have hsecond : (subscribeMgr (subscribeMgr s0 u c1 n1).2 u c2 n2)
      = (false, (subscribeMgr s0 u c1 n1).2) :=
    subscribeMgr_of_isSubscribing _ u c2 n2 hcreate.2
  refine ⟨hcreate.1, hcreate.2, ?_, ?_, ?_⟩
  · rw [hsecond]
  · rw [hsecond]
  · rw [hsecond]; exact hcreate.1

theorem claim_C2_witness :
    initChatMgr.isSubscribing = false ∧ initChatMgr.isActive = false ∧
    (subscribeMgr initChatMgr "u1" 0 "chat_0").2.creations
      = initChatMgr.creations + 1 ∧
    (subscribeMgr (subscribeMgr initChatMgr "u1" 0 "chat_0").2 "u1" 1
      "chat_1").2.creations = initChatMgr.creations + 1 := by
  exact ⟨rfl, rfl,
    (claim_C2_creating_gate initChatMgr "u1" 0 1 "chat_0" "chat_1" rfl rfl).1,
    (claim_C2_creating_gate initChatMgr "u1" 0 1 "chat_0" "chat_1"
      rfl rfl).2.2.2.2⟩

end Candlelife

namespace Candlelife

/-- Claim C5: from a live single-consumer subscription, unsubscribe drops the
count to zero and schedules the debounced cleanup without tearing anything
down; a subscribe for the same user arriving inside the window is accepted
and reuses the existing channel (no new creation); and when the scheduled
cleanup callback fires it finds a nonzero subscriber count and does nothing,
so no teardown-then-recreate of the channel is observed. -/
theorem claim_C5_debounce_reuse (s0 : ChatMgrState) (u : String) (c : Nat)
    (nm : String) (hAct : s0.isActive = true) (hCh : s0.channel.isSome = true)
    (hU : s0.currentUserId = some u) (hSub : s0.isSubscribing = false)
    (hCnt : s0.subscriberCount = 1) :
    (unsubscribeMgr s0).cleanupPending = true ∧
    (unsubscribeMgr s0).channel = s0.channel ∧
    (unsubscribeMgr s0).teardowns = s0.teardowns ∧
    (subscribeMgr (unsubscribeMgr s0) u c nm).1 = true ∧
    (subscribeMgr (unsubscribeMgr s0) u c nm).2.channel = s0.channel ∧
    (subscribeMgr (unsubscribeMgr s0) u c nm).2.creations = s0.creations ∧
    (subscribeMgr (unsubscribeMgr s0) u c nm).2.teardowns = s0.teardowns ∧
    (cleanupTimerFire (subscribeMgr (unsubscribeMgr s0) u c nm).2).channel
      = s0.channel ∧
    (cleanupTimerFire (subscribeMgr (unsubscribeMgr s0) u c nm).2).teardowns
      = s0.teardowns ∧
    (cleanupTimerFire (subscribeMgr (unsubscribeMgr s0) u c nm).2).creations
      = s0.creations ∧
    (cleanupTimerFire (subscribeMgr (unsubscribeMgr s0) u c nm).2).isActive
      = true := by
  have h1 : unsubscribeMgr s0 =
      { s0 with subscriberCount := 0, cleanupPending := true } := by
    simp [unsubscribeMgr, hCnt]
  have h2 : subscribeMgr (unsubscribeMgr s0) u c nm =
      (true, { s0 with subscriberCount := 1, cleanupPending := true }) := by
    rw [h1]
    simp [subscribeMgr, hSub, hAct, hU, hCh]
  have h3 : cleanupTimerFire (subscribeMgr (unsubscribeMgr s0) u c nm).2 =
      { s0 with subscriberCount := 1, cleanupPending := false } := by
    rw [h2]
    simp [cleanupTimerFire]
  rw [h3, h2, h1]
  simp [hAct]

theorem claim_C5_witness :
    mgrLive.isActive = true ∧ mgrLive.channel.isSome = true ∧
    mgrLive.currentUserId = some "u1" ∧ mgrLive.isSubscribing = false ∧
    mgrLive.subscriberCount = 1 ∧
    (subscribeMgr (unsubscribeMgr mgrLive) "u1" 7 "chat_7").2.channel
      = mgrLive.channel ∧
    (cleanupTimerFire
      (subscribeMgr (unsubscribeMgr mgrLive) "u1" 7 "chat_7").2).teardowns
      = mgrLive.teardowns := by
  refine ⟨rfl, rfl, rfl, rfl, rfl, ?_, ?_⟩
  · exact (claim_C5_debounce_reuse mgrLive "u1" 7 "chat_7"
      rfl rfl rfl rfl rfl).2.2.2.2.1
  · exact (claim_C5_debounce_reuse mgrLive "u1" 7 "chat_7"
      rfl rfl rfl rfl rfl).2.2.2.2.2.2.2.2.1

end Candlelife

namespace Candlelife

/-- Claim C7 counterexample: in the useRealtimeSubscription status callback,
a TIMED_OUT status does not discard the registry entry — the dead channel's
entry stays in the map. -/
theorem claim_C7_counterexample :
    statusCallbackReg [("messages_u1", ⟨0, 1⟩)] "messages_u1" 0 "TIMED_OUT"
      = [("messages_u1", ⟨0, 1⟩)] ∧
    (statusCallbackReg [("messages_u1", ⟨0, 1⟩)] "messages_u1" 0
      "TIMED_OUT").lookup "messages_u1" = some ⟨0, 1⟩ := by
  constructor
  · decide
  · decide

/-- Claim C7 amended: the useRealtimeSubscription status callback discards
the registry entry on CLOSED and CHANNEL_ERROR — so a later acquire for that
key creates a fresh channel — but leaves the entry in place on TIMED_OUT;
ChatSubscriptionManager's status callback does clear the channel on all
three terminal statuses (when the reporting channel is the current one), and
a subsequent subscribe performs a fresh channel creation. -/
theorem claim_C7_terminal_discard (m : List (String × RegEntry)) (k : String)
    (c : Nat) (s : ChatMgrState) (ch : ChannelHandle)
    (hch : s.channel = some ch) (hnm : s.channelName = some ch.topic) :
    (statusCallbackReg m k c "CLOSED").lookup k = none ∧
    (statusCallbackReg m k c "CHANNEL_ERROR").lookup k = none ∧
    statusCallbackReg m k c "TIMED_OUT" = m ∧
    (∀ (s' : RegState), s'.activeSubscriptions.lookup k = none →
      (acquire s' k).openChannels = (k, s'.nextChannel) :: s'.openChannels) ∧
    ((statusCallbackMgr s "CLOSED").channel = none ∧
      (statusCallbackMgr s "CLOSED").isActive = false) ∧
    ((statusCallbackMgr s "CHANNEL_ERROR").channel = none ∧
      (statusCallbackMgr s "CHANNEL_ERROR").isActive = false) ∧
    ((statusCallbackMgr s "TIMED_OUT").channel = none ∧
      (statusCallbackMgr s "TIMED_OUT").isActive = false) ∧
    (∀ (u : String) (cid : Nat) (nm : String),
      (subscribeMgr (statusCallbackMgr s "TIMED_OUT") u cid nm).2.creations
        = s.creations + 1) := by
  have hmgr : ∀ st, st = "CLOSED" ∨ st = "CHANNEL_ERROR" ∨ st = "TIMED_OUT" →
      statusCallbackMgr s st =
        { s with isActive := false, isSubscribing := false,
                 channel := none, channelName := none } := by
    intro st hst
    rcases hst with h | h | h <;> subst h <;>
      simp [statusCallbackMgr, hch, hnm]
  refine ⟨?_, ?_, ?_, ?_, ?_, ?_, ?_, ?_⟩
  · rw [show statusCallbackReg m k c "CLOSED" = mapDelete m k from by
      simp [statusCallbackReg]]
    exact lookup_mapDelete_self m k
  · rw [show statusCallbackReg m k c "CHANNEL_ERROR" = mapDelete m k from by
      simp [statusCallbackReg]]
    exact lookup_mapDelete_self m k
  · simp [statusCallbackReg]
  · intro s' h
    have hs : acquire s' k =
        { activeSubscriptions :=
            mapSet s'.activeSubscriptions k ⟨s'.nextChannel, 1⟩
          openChannels := (k, s'.nextChannel) :: s'.openChannels
          nextChannel := s'.nextChannel + 1 } := by
      unfold acquire; rw [h]
    rw [hs]
  · rw [hmgr "CLOSED" (Or.inl rfl)]
    exact ⟨rfl, rfl⟩
  · rw [hmgr "CHANNEL_ERROR" (Or.inr (Or.inl rfl))]
    exact ⟨rfl, rfl⟩
  · rw [hmgr "TIMED_OUT" (Or.inr (Or.inr rfl))]
    exact ⟨rfl, rfl⟩
  · intro u cid nm
    rw [hmgr "TIMED_OUT" (Or.inr (Or.inr rfl))]
    simp [subscribeMgr, forceCleanup, createSubscription]

theorem claim_C7_witness :
    mgrLive.channel = some ⟨0, "chat_messages_u1_0"⟩ ∧
    mgrLive.channelName = some (ChannelHandle.mk 0 "chat_messages_u1_0").topic ∧
    (statusCallbackReg [("messages_u1", ⟨0, 1⟩)] "messages_u1" 0
      "CLOSED").lookup "messages_u1" = none ∧
    (statusCallbackMgr mgrLive "TIMED_OUT").channel = none := by
  refine ⟨rfl, rfl, ?_, ?_⟩
  · exact (claim_C7_terminal_discard [("messages_u1", ⟨0, 1⟩)] "messages_u1" 0
      mgrLive ⟨0, "chat_messages_u1_0"⟩ rfl rfl).1
  · exact (claim_C7_terminal_discard [("messages_u1", ⟨0, 1⟩)] "messages_u1" 0
      mgrLive ⟨0, "chat_messages_u1_0"⟩ rfl rfl).2.2.2.2.2.2.1.1

end Candlelife

namespace Candlelife

/-- Claim C10: getNotifications and the listener callback argument are fresh
copies of the internal log — the returned reference differs from the
service's internal one, initially holds the same contents, and writing any
value through it leaves the internal log, and hence what saveToStorage would
persist, unchanged. -/
theorem claim_C10_no_alias (svc : NotifServiceRef) (h : Heap)
    (hv : svc.notifRef < h.cells.length) :
    (getNotifications svc h).1 ≠ svc.notifRef ∧
    (getNotifications svc h).2.read (getNotifications svc h).1
      = h.read svc.notifRef ∧
    (∀ v, ((getNotifications svc h).2.write (getNotifications svc h).1
      v).read svc.notifRef = h.read svc.notifRef) ∧
    (∀ v, saveToStorageRef svc
        ((getNotifications svc h).2.write (getNotifications svc h).1 v)
      = saveToStorageRef svc h) ∧
    (listenerArg svc h).1 ≠ svc.notifRef ∧
    (∀ v, ((listenerArg svc h).2.write (listenerArg svc h).1 v).read
      svc.notifRef = h.read svc.notifRef) := by
  have hne : h.cells.length ≠ svc.notifRef := (Nat.ne_of_lt hv).symm
  have hfresh : (Heap.mk (h.cells ++ [h.read svc.notifRef])).read
      h.cells.length = h.read svc.notifRef := by
    simp [Heap.read]
  have hwrite : ∀ v, ((Heap.mk (h.cells ++ [h.read svc.notifRef])).write
      h.cells.length v).read svc.notifRef = h.read svc.notifRef := by
    intro v
    show (((h.cells ++ [h.read svc.notifRef]).set h.cells.length
      v)[svc.notifRef]?).getD [] = (h.cells[svc.notifRef]?).getD []
    rw [List.getElem?_set_ne hne, List.getElem?_append_left hv]
  exact ⟨hne, hfresh, hwrite, fun v => hwrite v, hne, hwrite⟩

theorem claim_C10_witness :
    (NotifServiceRef.mk 0).notifRef < (Heap.mk [[notifSample]]).cells.length ∧
    (getNotifications ⟨0⟩ ⟨[[notifSample]]⟩).1 ≠ (NotifServiceRef.mk 0).notifRef ∧
    ((getNotifications ⟨0⟩ ⟨[[notifSample]]⟩).2.write
        (getNotifications ⟨0⟩ ⟨[[notifSample]]⟩).1 []).read 0
      = (Heap.mk [[notifSample]]).read 0 := by
  have hv : (NotifServiceRef.mk 0).notifRef
      < (Heap.mk [[notifSample]]).cells.length := by
    show 0 < 1
    exact Nat.zero_lt_one
  exact ⟨hv, (claim_C10_no_alias ⟨0⟩ ⟨[[notifSample]]⟩ hv).1,
    (claim_C10_no_alias ⟨0⟩ ⟨[[notifSample]]⟩ hv).2.2.1 []⟩

end Candlelife
